import Mathlib

/-!
Verification of the Completion Observer in `src/ajax_listener.js`.

The script polls for the global jQuery handle (`waitForjQuery`), attaches a
single `ajaxComplete` subscription (`bindToAjax`), and on each completion
notification classifies the finished request: if the requested URL contains
the fixed endpoint substring and the parsed JSON response exists with
`success === true`, one analytics event is pushed onto the global
`dataLayer` queue, otherwise nothing is pushed.  Either branch logs one
fixed diagnostic message.

The embedding below translates the JavaScript directly:
* JS values relevant to the classification are modelled by `JSVal`
  (strict equality `===` is equality of `JSVal`).
* The completion notification carries the fields the jQuery callback
  receives: `opts.url`, `jqXhr.responseJSON`, `evt.timeStamp`, plus
  further fields of the callback arguments that the handler never reads
  (`opts.type`, `jqXhr.status`, `jqXhr.responseText`).
* Faults the handler can raise (property access on `undefined`, reference
  to a missing global `dataLayer`) are modelled with `Except`.
* The startup polling loop is modelled as a step function on an observer
  state driven by the scheduler: each delivered `waitForjQuery` invocation
  either attaches (when jQuery is defined at that moment) or schedules
  exactly one further invocation.
-/

/-- A JavaScript value, as far as the classification logic observes it.
JS strict equality `===` between such values is `JSVal` equality. -/
inductive JSVal where
  | undef
  | null
  | bool (b : Bool)
  | num (n : Int)
  | str (s : String)
deriving DecidableEq, Repr

/-- The parsed JSON response object (`jqXhr.responseJSON` when it exists).
`success` is the value of its success field; a response object lacking the
field carries `JSVal.undef` there, exactly as property access in JS. -/
structure RespObj where
  success : JSVal
deriving DecidableEq, Repr

/-- One `ajaxComplete` notification: the data the anonymous handler in
`bindToAjax` receives through its three callback arguments.  The first
three fields are the ones the handler reads; the remaining fields are
other data carried by the same callback arguments, which the handler
ignores. -/
structure Notification where
  /-- `opts.url`; `none` models the field being `undefined`. -/
  url : Option String
  /-- `jqXhr.responseJSON`; `none` models an absent (falsy) parsed response. -/
  response : Option RespObj
  /-- `evt.timeStamp`; `none` models an absent timestamp. -/
  timeStamp : Option Nat
  /-- `opts.type` (the HTTP method) — never read by the handler. -/
  optsType : String
  /-- `jqXhr.status` — never read by the handler. -/
  status : Nat
  /-- `jqXhr.responseText` — never read by the handler. -/
  responseText : String
deriving DecidableEq, Repr

/-- The nested attributes mapping of an analytics event. -/
structure Attributes where
  time : JSVal
deriving DecidableEq, Repr

/-- An analytics event as pushed onto the global `dataLayer` queue. -/
structure AnalyticsEvent where
  event : String
  attributes : Attributes
deriving DecidableEq, Repr

/-- The faults the handler can raise into the host page:
a property access on `undefined` (when `opts.url` is absent), and a
reference to the global `dataLayer` when it does not exist. -/
inductive JSError where
  | typeError
  | referenceError
deriving DecidableEq, Repr

/-- Does the character list start with the given pattern? -/
def matchesHere : List Char → List Char → Bool
  | _, [] => true
  | [], _ :: _ => false
  | c :: cs, d :: ds => c == d && matchesHere cs ds

/-- Does the pattern occur as a contiguous run anywhere in the list? -/
def hasSubstring : List Char → List Char → Bool
  | [], sub => sub.isEmpty
  | c :: cs, sub => matchesHere (c :: cs) sub || hasSubstring cs sub

/-- JS `s.indexOf(sub) !== -1`: the pattern occurs somewhere in `s`. -/
def indexOfFound (s sub : String) : Bool :=
  hasSubstring s.data sub.data

/-- The fixed endpoint substring, `signup_resource` in the source. -/
def signup_resource : String := "/wp-admin/admin-ajax.php"

/-- JS `evt.timeStamp || ''`: the timestamp when present and nonzero
(both `undefined` and `0` are falsy), else the empty string. -/
def jsTimeOr : Option Nat → JSVal
  | some t => if t = 0 then JSVal.str "" else JSVal.num t
  | none => JSVal.str ""

/-- The classification condition of the handler:
`requested_url.indexOf(signup_resource) !== -1 && response && response.success === true`.
The `response &&` conjunct is JS truthiness of the response object, so an
absent response short-circuits to false without reading its field. -/
def completionCondition (requested_url : String) (response : Option RespObj) : Bool :=
  indexOfFound requested_url signup_resource &&
    match response with
    | some response => decide (response.success = JSVal.bool true)
    | none => false

/-- The anonymous `ajaxComplete` handler installed by `bindToAjax`,
as a function of the notification and the current state of the global
`dataLayer` queue (`none` when the global does not exist).  It returns
either a raised fault, or the new queue state together with the list of
diagnostic messages written by `console.log`.

Translation notes:
* `opts.url` being `undefined` makes `requested_url.indexOf(...)` throw
  a type fault before anything else happens.
* `dataLayer.push(...)` with no global `dataLayer` throws a reference
  fault; it is only reached in the success branch, and it happens before
  the `console.log` of the success branch.
* In the non-matching branch the queue is not touched at all. -/
def ajaxCompleteHandler (evt : Notification) (dataLayer : Option (List AnalyticsEvent)) :
    Except JSError (Option (List AnalyticsEvent) × List String) :=
  match evt.url with
  | none => Except.error JSError.typeError
  | some requested_url =>
    if completionCondition requested_url evt.response then
      match dataLayer with
      | none => Except.error JSError.referenceError
      | some q =>
        Except.ok (some (q ++ [{ event := "lead_form_completed",
                                 attributes := { time := jsTimeOr evt.timeStamp } }]),
                   ["lead_form_completed"])
    else
      Except.ok (dataLayer, ["lead_form_not_completed"])

/-- State of the startup protocol of `waitForjQuery`:
`pending` records whether an invocation of `waitForjQuery` is currently
scheduled (directly or via `setTimeout`), `binds` counts how many times
`bindToAjax` has attached the subscription. -/
structure ObserverState where
  pending : Bool
  binds : Nat
deriving DecidableEq, Repr

/-- Initial state: the script body calls `waitForjQuery()` once, so one
invocation is pending and no subscription is attached. -/
def initialObserver : ObserverState :=
  { pending := true, binds := 0 }

/-- One scheduler delivery.  If an invocation of `waitForjQuery` is
pending it runs now: when `typeof jQuery` is not undefined at this
moment it calls `bindToAjax()` and schedules nothing further, otherwise
it re-schedules itself once via `setTimeout`.  With nothing pending the
state is unchanged. -/
def observerStep (jqueryDefined : Bool) (s : ObserverState) : ObserverState :=
  if s.pending then
    if jqueryDefined then { pending := false, binds := s.binds + 1 }
    else { pending := true, binds := s.binds }
  else s

/-- The observer state after `n` scheduler deliveries, where
`jqueryDefined i` tells whether the jQuery global exists when the
`i`-th delivery (0-based) runs. -/
def observerRun (jqueryDefined : Nat → Bool) : Nat → ObserverState
  | 0 => initialObserver
  | n + 1 => observerStep (jqueryDefined n) (observerRun jqueryDefined n)

/-- Availability schedule of a library that becomes available after `k`
polling intervals: the check at delivery `i` finds it iff `k ≤ i`. -/
def availAfter (k i : Nat) : Bool := decide (k ≤ i)

/-- The characters of a URL before the first query separator. -/
def beforeQuery : List Char → List Char
  | [] => []
  | c :: cs => if c == '?' then [] else c :: beforeQuery cs

/-- The scheme, host and path portion of a URL: everything before the
first query separator. -/
def pathPart (u : String) : String := String.mk (beforeQuery u.data)

/-- Once no invocation is pending, the observer state never changes again. -/
theorem observerRun_stable (jq : Nat → Bool) (n : Nat)
    (h : (observerRun jq n).pending = false) :
    ∀ m, observerRun jq (n + m) = observerRun jq n := by
  intro m
  induction m with
  | zero => rfl
  | succ m ih =>
    have : n + (m + 1) = (n + m) + 1 := by omega
    rw [this]
    simp only [observerRun, ih, observerStep, h]
    simp

/-- Invariant of the startup protocol: at most one attachment ever
happens, and while an invocation is still pending none has happened. -/
theorem observerRun_inv (jq : Nat → Bool) (n : Nat) :
    (observerRun jq n).binds ≤ 1 ∧
      ((observerRun jq n).pending = true → (observerRun jq n).binds = 0) := by
  induction n with
  | zero => simp [observerRun, initialObserver]
  | succ n ih =>
    obtain ⟨h1, h2⟩ := ih
    simp only [observerRun, observerStep]
    cases hp : (observerRun jq n).pending with
    | false => simp [hp] at h2 ⊢; exact h1
    | true =>
      cases hj : jq n with
      | false => simp [hp, hj, h2 hp]
      | true => simp [hp, hj, h2 hp]

/-- C7: if the jQuery global becomes available after `k` polling
intervals, the readiness check fails on the first `k` attempts (the
observer is still in its initial waiting state after each of them),
attempt `k + 1` succeeds and attaches the subscription, and no further
polling attempt is ever scheduled afterwards (the state stays attached
with nothing pending, forever). -/
theorem waitForjQuery_attaches_at_k_plus_one (k : Nat) :
    (∀ n, n ≤ k → observerRun (availAfter k) n = initialObserver) ∧
    (∀ m, observerRun (availAfter k) (k + 1 + m) =
      { pending := false, binds := 1 }) := by
  have hwait : ∀ n, n ≤ k → observerRun (availAfter k) n = initialObserver := by
    intro n hn
    induction n with
    | zero => rfl
    | succ n ih =>
      have hn' : n ≤ k := Nat.le_of_succ_le hn
      have hav : availAfter k n = false := by
        simp only [availAfter, decide_eq_false_iff_not]
        omega
      simp only [observerRun, ih hn', observerStep, initialObserver, hav]
      simp
  have hattach : observerRun (availAfter k) (k + 1) = { pending := false, binds := 1 } := by
    have hav : availAfter k k = true := by
      simp [availAfter]
    simp only [observerRun, hwait k (Nat.le_refl k), observerStep, initialObserver, hav]
    simp
  refine ⟨hwait, fun m => ?_⟩
  rw [observerRun_stable (availAfter k) (k + 1) (by rw [hattach]) m, hattach]

/-- C7 witness: with the library available after 2 intervals, the first
2 attempts leave the observer waiting with no attachment, the third
attempt attaches, and the state is unchanged 5 deliveries later. -/
theorem waitForjQuery_attaches_at_k_plus_one_witness :
    observerRun (availAfter 2) 2 = initialObserver ∧
    observerRun (availAfter 2) 3 = { pending := false, binds := 1 } ∧
    observerRun (availAfter 2) 8 = { pending := false, binds := 1 } :=
  ⟨(waitForjQuery_attaches_at_k_plus_one 2).1 2 (by decide),
   (waitForjQuery_attaches_at_k_plus_one 2).2 0,
   (waitForjQuery_attaches_at_k_plus_one 2).2 5⟩

/-- C8: in every execution of the startup state machine, whatever the
availability schedule, the number of `bindToAjax` attachments performed
is at most one in every reachable state, and once it has reached one
(the attached state) it stays exactly one in all later states. -/
theorem subscription_installed_at_most_once (jq : Nat → Bool) (n : Nat) :
    (observerRun jq n).binds ≤ 1 ∧
    ((observerRun jq n).binds = 1 → ∀ m, (observerRun jq (n + m)).binds = 1) := by
  refine ⟨(observerRun_inv jq n).1, fun h1 m => ?_⟩
  have hp : (observerRun jq n).pending = false := by
    cases hp : (observerRun jq n).pending with
    | false => rfl
    | true =>
      have h0 := (observerRun_inv jq n).2 hp
      omega
  rw [observerRun_stable jq n hp m, h1]

/-- C8 witness: with jQuery available from the start, after 4 deliveries
the attachment count is at most one, and since it is one after 1
delivery it is still one 6 deliveries later. -/
theorem subscription_installed_at_most_once_witness :
    (observerRun (fun _ => true) 4).binds ≤ 1 ∧
    (observerRun (fun _ => true) 7).binds = 1 :=
  ⟨(subscription_installed_at_most_once (fun _ => true) 4).1,
   (subscription_installed_at_most_once (fun _ => true) 1).2 (by decide) 6⟩

/-- The example notification of the spec: a signup request to the
admin-ajax endpoint that succeeded, with timestamp 1234. -/
def exampleNotification : Notification :=
  { url := some "https://site.test/wp-admin/admin-ajax.php?action=signup",
    response := some { success := JSVal.bool true },
    timeStamp := some 1234,
    optsType := "POST", status := 200, responseText := "ok" }

/-- C1: for every completion notification whose request URL contains the
endpoint substring and whose parsed JSON response exists with success
indicator exactly `true`, the handler appends exactly one event to the
analytics queue, named `lead_form_completed`, whose attributes hold the
timestamp of the notification under the `time` key. -/
theorem lead_event_queued_on_success
    (n : Notification) (u : String) (r : RespObj) (t : Nat) (q : List AnalyticsEvent)
    (hu : n.url = some u)
    (hmatch : indexOfFound u signup_resource = true)
    (hr : n.response = some r)
    (hs : r.success = JSVal.bool true)
    (ht : n.timeStamp = some t) (ht0 : t ≠ 0) :
    ajaxCompleteHandler n (some q) =
      Except.ok (some (q ++ [{ event := "lead_form_completed",
                               attributes := { time := JSVal.num t } }]),
                 ["lead_form_completed"]) := by
  simp [ajaxCompleteHandler, completionCondition, hu, hr, hs, ht, hmatch, jsTimeOr, ht0]

/-- C1 witness: the example scenario of the spec queues exactly the
expected event onto an empty queue. -/
theorem lead_event_queued_on_success_witness :
    ajaxCompleteHandler exampleNotification (some []) =
      Except.ok (some [{ event := "lead_form_completed",
                         attributes := { time := JSVal.num 1234 } }],
                 ["lead_form_completed"]) :=
  lead_event_queued_on_success exampleNotification
    "https://site.test/wp-admin/admin-ajax.php?action=signup"
    { success := JSVal.bool true } 1234 [] rfl (by decide) rfl rfl rfl (by decide)

/-- C2: a completion notification whose URL contains the endpoint
substring but whose response success indicator is not exactly the
boolean `true` — including any truthy non-boolean value and an entirely
absent parsed response — queues no analytics event: the queue state is
returned unchanged and the non-completion message is logged. -/
theorem no_event_without_strict_success
    (n : Notification) (u : String) (dl : Option (List AnalyticsEvent))
    (hu : n.url = some u)
    (_hmatch : indexOfFound u signup_resource = true)
    (hs : ∀ r, n.response = some r → r.success ≠ JSVal.bool true) :
    ajaxCompleteHandler n dl = Except.ok (dl, ["lead_form_not_completed"]) := by
  have hc : completionCondition u n.response = false := by
    unfold completionCondition
    cases hr : n.response with
    | none => simp
    | some r => simp [hs r hr]
  simp [ajaxCompleteHandler, hu, hc]

/-- C2 witness: the string value "true" as success indicator on a
matching URL queues nothing. -/
theorem no_event_without_strict_success_witness :
    ajaxCompleteHandler
      { exampleNotification with response := some { success := JSVal.str "true" } }
      (some []) = Except.ok (some [], ["lead_form_not_completed"]) :=
  no_event_without_strict_success _
    "https://site.test/wp-admin/admin-ajax.php?action=signup" (some []) rfl (by decide)
    (by intro r hr; injection hr with h; rw [← h]; decide)

/-- C4: a completion notification whose URL does not contain the
endpoint substring queues no analytics event, whatever the response
payload and whatever the queue state. -/
theorem no_event_when_url_lacks_endpoint
    (n : Notification) (u : String) (dl : Option (List AnalyticsEvent))
    (hu : n.url = some u)
    (hmatch : indexOfFound u signup_resource = false) :
    ajaxCompleteHandler n dl = Except.ok (dl, ["lead_form_not_completed"]) := by
  have hc : completionCondition u n.response = false := by
    unfold completionCondition
    rw [hmatch]
    simp
  simp [ajaxCompleteHandler, hu, hc]

/-- C4 witness: a successful response on a non-matching URL queues
nothing. -/
theorem no_event_when_url_lacks_endpoint_witness :
    ajaxCompleteHandler
      { exampleNotification with url := some "https://site.test/contact" }
      (some []) = Except.ok (some [], ["lead_form_not_completed"]) :=
  no_event_when_url_lacks_endpoint _ "https://site.test/contact" (some []) rfl (by decide)

/-- C5: a matching successful notification whose timestamp is absent or
zero still queues an event whose attributes carry the `time` key, with
the empty string as its value. -/
theorem empty_time_on_absent_or_zero_timestamp
    (n : Notification) (u : String) (r : RespObj) (q : List AnalyticsEvent)
    (hu : n.url = some u)
    (hmatch : indexOfFound u signup_resource = true)
    (hr : n.response = some r)
    (hs : r.success = JSVal.bool true)
    (ht : n.timeStamp = none ∨ n.timeStamp = some 0) :
    ajaxCompleteHandler n (some q) =
      Except.ok (some (q ++ [{ event := "lead_form_completed",
                               attributes := { time := JSVal.str "" } }]),
                 ["lead_form_completed"]) := by
  rcases ht with ht | ht <;>
    simp [ajaxCompleteHandler, completionCondition, hu, hr, hs, ht, hmatch, jsTimeOr]

/-- C5 witness: an absent timestamp on the matching successful
notification yields the empty-string time attribute. -/
theorem empty_time_on_absent_or_zero_timestamp_witness :
    ajaxCompleteHandler { exampleNotification with timeStamp := none } (some []) =
      Except.ok (some [{ event := "lead_form_completed",
                         attributes := { time := JSVal.str "" } }],
                 ["lead_form_completed"]) :=
  empty_time_on_absent_or_zero_timestamp _
    "https://site.test/wp-admin/admin-ajax.php?action=signup"
    { success := JSVal.bool true } [] rfl (by decide) rfl rfl (Or.inl rfl)

/-- A URL whose scheme-host-path portion does not contain the endpoint
substring: the substring occurs only inside a query-string value. -/
def queryMatchUrl : String :=
  "https://site.test/page?redirect=/wp-admin/admin-ajax.php"

/-- A successful notification for `queryMatchUrl`. -/
def queryMatchNotification : Notification :=
  { url := some queryMatchUrl,
    response := some { success := JSVal.bool true },
    timeStamp := some 41,
    optsType := "GET", status := 200, responseText := "ok" }

/-- C6: classification is substring containment anywhere in the URL.
For a concrete URL that carries the endpoint substring only inside a
query-string value — its portion before the query separator does not
contain the substring — a successful response still queues the analytics
event. -/
theorem query_value_match_still_queues_event :
    indexOfFound (pathPart queryMatchUrl) signup_resource = false ∧
    indexOfFound queryMatchUrl signup_resource = true ∧
    ajaxCompleteHandler queryMatchNotification (some []) =
      Except.ok (some [{ event := "lead_form_completed",
                         attributes := { time := JSVal.num 41 } }],
                 ["lead_form_completed"]) :=
  ⟨by decide, by decide, rfl⟩

/-- A successful matching notification whose `opts.url` field is absent. -/
def urlAbsentNotification : Notification :=
  { url := none,
    response := some { success := JSVal.bool true },
    timeStamp := some 10,
    optsType := "POST", status := 200, responseText := "ok" }

/-- A successful matching notification on the admin-ajax endpoint. -/
def plainSuccessNotification : Notification :=
  { url := some "https://site.test/wp-admin/admin-ajax.php",
    response := some { success := JSVal.bool true },
    timeStamp := some 10,
    optsType := "POST", status := 200, responseText := "ok" }

/-- C3 counterexample: processing does throw faults into the host page.
With an absent URL field the handler raises a type fault (the substring
check is a method call on an undefined value), and with the global
analytics queue absent at emission time a matching successful
notification raises a reference fault. -/
theorem handler_faults_on_absent_url_or_queue :
    ajaxCompleteHandler urlAbsentNotification (some []) =
      Except.error JSError.typeError ∧
    ajaxCompleteHandler plainSuccessNotification none =
      Except.error JSError.referenceError :=
  ⟨rfl, rfl⟩

/-- C3 amended: processing a completion notification raises no fault
provided the URL field of the notification is present and the global
analytics queue exists; when the URL field is absent the handler raises
a type fault, and when the queue is absent at emission time a matching
successful notification raises a reference fault. -/
theorem handler_completes_normally_with_url_and_queue
    (n : Notification) (u : String) (q : List AnalyticsEvent)
    (hu : n.url = some u) :
    ∃ dlOut msgs, ajaxCompleteHandler n (some q) = Except.ok (dlOut, msgs) := by
  cases hc : completionCondition u n.response with
  | false => exact ⟨some q, ["lead_form_not_completed"], by simp [ajaxCompleteHandler, hu, hc]⟩
  | true =>
    exact ⟨some (q ++ [{ event := "lead_form_completed",
                         attributes := { time := jsTimeOr n.timeStamp } }]),
           ["lead_form_completed"], by simp [ajaxCompleteHandler, hu, hc]⟩

/-- C3 witness: with the URL present and the queue existing, the
matching successful notification is processed without a fault. -/
theorem handler_completes_normally_with_url_and_queue_witness :
    ∃ dlOut msgs, ajaxCompleteHandler plainSuccessNotification (some []) =
      Except.ok (dlOut, msgs) :=
  handler_completes_normally_with_url_and_queue plainSuccessNotification
    "https://site.test/wp-admin/admin-ajax.php" [] rfl

/-- C9: processing a completion notification (with its URL present and
the queue existing) logs exactly one diagnostic message, with one fixed
text per branch; the queue is mutated only in the success branch, where
the previous contents are kept and exactly one event is appended, and in
the non-matching branch the queue is returned entirely unchanged — the
handler never reads from or removes elements of the queue. -/
theorem one_trace_message_and_append_only_queue
    (n : Notification) (u : String) (q : List AnalyticsEvent)
    (hu : n.url = some u) :
    ∃ dlOut msgs, ajaxCompleteHandler n (some q) = Except.ok (dlOut, msgs) ∧
      msgs.length = 1 ∧
      ((msgs = ["lead_form_completed"] ∧
        dlOut = some (q ++ [{ event := "lead_form_completed",
                              attributes := { time := jsTimeOr n.timeStamp } }])) ∨
       (msgs = ["lead_form_not_completed"] ∧ dlOut = some q)) := by
  cases hc : completionCondition u n.response with
  | false =>
    exact ⟨some q, ["lead_form_not_completed"],
           by simp [ajaxCompleteHandler, hu, hc], rfl, Or.inr ⟨rfl, rfl⟩⟩
  | true =>
    exact ⟨some (q ++ [{ event := "lead_form_completed",
                         attributes := { time := jsTimeOr n.timeStamp } }]),
           ["lead_form_completed"],
           by simp [ajaxCompleteHandler, hu, hc], rfl, Or.inl ⟨rfl, rfl⟩⟩

/-- C9 witness: the example notification is processed with exactly one
logged message and an append-only queue change. -/
theorem one_trace_message_and_append_only_queue_witness :
    ∃ dlOut msgs, ajaxCompleteHandler exampleNotification (some []) =
      Except.ok (dlOut, msgs) ∧
      msgs.length = 1 ∧
      ((msgs = ["lead_form_completed"] ∧
        dlOut = some ([] ++ [{ event := "lead_form_completed",
                               attributes := { time := jsTimeOr exampleNotification.timeStamp } }])) ∨
       (msgs = ["lead_form_not_completed"] ∧ dlOut = some [])) :=
  one_trace_message_and_append_only_queue exampleNotification
    "https://site.test/wp-admin/admin-ajax.php?action=signup" [] rfl

/-- C10: the handler is deterministic and depends only on the URL, the
parsed JSON response and the timestamp of the notification: two
notifications agreeing on those three fields produce identical results
on any queue state, whatever their other fields (HTTP method, status
code, raw response text). -/
theorem handler_reads_only_url_response_timestamp
    (n1 n2 : Notification) (dl : Option (List AnalyticsEvent))
    (hu : n1.url = n2.url) (hr : n1.response = n2.response)
    (ht : n1.timeStamp = n2.timeStamp) :
    ajaxCompleteHandler n1 dl = ajaxCompleteHandler n2 dl := by
  unfold ajaxCompleteHandler
  rw [hu, hr, ht]

/-- C10 witness: two notifications differing only in method, status code
and raw response text are processed identically. -/
theorem handler_reads_only_url_response_timestamp_witness :
    ajaxCompleteHandler exampleNotification (some []) =
      ajaxCompleteHandler
        { exampleNotification with optsType := "GET", status := 500, responseText := "x" }
        (some []) :=
  handler_reads_only_url_response_timestamp _ _ (some []) rfl rfl rfl
